import Mathlib

/-!
Shallow embedding of the editorjs-image `Ui` class (src/src/ui.js, with the
divergent revision in src/unnamed/part_000 embedded separately where the two
differ), together with theorems settling the frozen claims about it.

Conventions of the embedding:
  - JavaScript numbers are modelled as rationals (ℚ); the code performs no
    floating-point-specific operation on the values the claims mention.
  - A DOM text field's content is modelled as `Option ℚ`: `none` stands for
    the empty string, `some q` for a numeral string with value `q` (the only
    contents the claims quantify over); `Number s` is then `Option.getD _ 0`
    at the call sites that use the `=== '' ? 0 : Number(...)` pattern.
  - An element's inline pixel size (`style.width`/`style.height`) is
    `Option ℚ`: `none` means no inline size (natural size), `some q` means
    `q` pixels.
  - Booleans that the source reads from initially-`undefined` config fields
    are modelled as `Bool` starting at `false`: every read of those fields in
    the source goes through `!`-negation, `classList.toggle`'s force
    parameter or an `if`, all of which treat `undefined` exactly as `false`.
-/

namespace ImageBlock

/-! ## Alignment selection (src/src/ui.js lines 380-401)

`config.isSelectedLeft/Center/Right` are the three alignment selection
flags; `onSelectAlign` is the click handler shared by the three alignment
buttons. -/

structure AlignFlags where
  isSelectedLeft : Bool
  isSelectedCenter : Bool
  isSelectedRight : Bool
deriving DecidableEq

/-- `isToggle(align) { return !align; }` (src/src/ui.js line 380). -/
def isToggle (align : Bool) : Bool := !align

/-- `onSelectAlign(align)` (src/src/ui.js lines 390-401): each flag becomes
`isToggle` of its previous value when `align` names its position and `false`
otherwise.  (The subsequent `applyTune`/`applyAlign` calls repaint CSS
classes from these flags and touch no other state.) -/
def onSelectAlign (align : String) (cfg : AlignFlags) : AlignFlags :=
  { isSelectedLeft :=
      if align = "left" then isToggle cfg.isSelectedLeft else false
    isSelectedCenter :=
      if align = "center" then isToggle cfg.isSelectedCenter else false
    isSelectedRight :=
      if align = "right" then isToggle cfg.isSelectedRight else false }

/-- No two of the three alignment selection flags are set. -/
def atMostOneSelected (cfg : AlignFlags) : Bool :=
  !(cfg.isSelectedLeft && cfg.isSelectedCenter)
  && !(cfg.isSelectedLeft && cfg.isSelectedRight)
  && !(cfg.isSelectedCenter && cfg.isSelectedRight)

theorem onSelectAlign_left_eq (align : String) (cfg : AlignFlags) :
    (onSelectAlign align cfg).isSelectedLeft
      = (decide (align = "left") && !cfg.isSelectedLeft) := by
  by_cases h : align = "left" <;> simp [onSelectAlign, isToggle, h]

theorem onSelectAlign_center_eq (align : String) (cfg : AlignFlags) :
    (onSelectAlign align cfg).isSelectedCenter
      = (decide (align = "center") && !cfg.isSelectedCenter) := by
  by_cases h : align = "center" <;> simp [onSelectAlign, isToggle, h]

theorem onSelectAlign_right_eq (align : String) (cfg : AlignFlags) :
    (onSelectAlign align cfg).isSelectedRight
      = (decide (align = "right") && !cfg.isSelectedRight) := by
  by_cases h : align = "right" <;> simp [onSelectAlign, isToggle, h]

/-- C1: after any `onSelectAlign` call, from any flag state (hence after
each call of any call sequence), at most one of the three alignment
selection flags is true; the flags of the two positions not named by the
call are always cleared, so selecting a position different from the
currently selected one clears the prior one. -/
theorem onSelectAlign_atMostOne (align : String) (cfg : AlignFlags) :
    atMostOneSelected (onSelectAlign align cfg) = true
    ∧ (onSelectAlign align cfg).isSelectedLeft
        = (decide (align = "left") && !cfg.isSelectedLeft)
    ∧ (onSelectAlign align cfg).isSelectedCenter
        = (decide (align = "center") && !cfg.isSelectedCenter)
    ∧ (onSelectAlign align cfg).isSelectedRight
        = (decide (align = "right") && !cfg.isSelectedRight) := by
  refine ⟨?_, onSelectAlign_left_eq align cfg, onSelectAlign_center_eq align cfg,
    onSelectAlign_right_eq align cfg⟩
  rw [atMostOneSelected, onSelectAlign_left_eq, onSelectAlign_center_eq,
    onSelectAlign_right_eq]
  by_cases h1 : align = "left"
  · have h2 : align ≠ "center" := by rw [h1]; decide
    have h3 : align ≠ "right" := by rw [h1]; decide
    simp [h1, h2, h3]
  · by_cases h2 : align = "center"
    · have h3 : align ≠ "right" := by rw [h2]; decide
      simp [h1, h2, h3]
    · simp [h1, h2]

/-- C2 counterexample: starting from no alignment, select "left" once (so
"left" is the currently selected alignment), then call `onSelectAlign` with
"left" twice more.  The claim says the two trailing calls leave all three
flags false; in fact the left flag is true again. -/
theorem onSelectAlign_double_cex :
    (onSelectAlign "left" (onSelectAlign "left" (onSelectAlign "left"
        { isSelectedLeft := false, isSelectedCenter := false,
          isSelectedRight := false }))).isSelectedLeft = true := by
  decide

/-- C2 amended: calling `onSelectAlign` twice with the same position clears
the two other flags and restores that position's flag to its value before
the two calls; all three flags end false exactly when that position was not
selected at the start (a pure toggle, not double-application-to-empty). -/
theorem onSelectAlign_double (cfg : AlignFlags) :
    onSelectAlign "left" (onSelectAlign "left" cfg)
      = { isSelectedLeft := cfg.isSelectedLeft, isSelectedCenter := false,
          isSelectedRight := false }
    ∧ onSelectAlign "center" (onSelectAlign "center" cfg)
      = { isSelectedLeft := false, isSelectedCenter := cfg.isSelectedCenter,
          isSelectedRight := false }
    ∧ onSelectAlign "right" (onSelectAlign "right" cfg)
      = { isSelectedLeft := false, isSelectedCenter := false,
          isSelectedRight := cfg.isSelectedRight } := by
  refine ⟨?_, ?_, ?_⟩ <;> simp [onSelectAlign, isToggle]

/-- C10: `onSelectAlign` with an argument outside {left, center, right}
sets all three alignment selection flags to false, whatever they were. -/
theorem onSelectAlign_unknown (align : String) (cfg : AlignFlags)
    (h : align ≠ "left" ∧ align ≠ "center" ∧ align ≠ "right") :
    onSelectAlign align cfg
      = { isSelectedLeft := false, isSelectedCenter := false,
          isSelectedRight := false } := by
  simp [onSelectAlign, h.1, h.2.1, h.2.2]

theorem onSelectAlign_unknown_witness :
    onSelectAlign "top"
        { isSelectedLeft := true, isSelectedCenter := false,
          isSelectedRight := false }
      = { isSelectedLeft := false, isSelectedCenter := false,
          isSelectedRight := false } :=
  onSelectAlign_unknown "top"
    { isSelectedLeft := true, isSelectedCenter := false,
      isSelectedRight := false } (by decide)

/-! ## Interactive-resize bound box (src/src/ui.js lines 300-316)

`makeImageResizable` installs a `Konva.Transformer` whose `boundBoxFunc`
receives the previous and the proposed bounding box of the proxy on every
handle-drag step.  In src/src/ui.js the maxima are the canvas extent
`MAX_WIDTH = 700`, `MAX_HEIGHT = 410`; in src/unnamed/part_000 they are the
dynamically computed `canvasWidth`/`canvasHeight`.  The policy is the same
function of the maxima in both revisions, so it is parametrised here. -/

structure BoundBox where
  x : ℚ
  y : ℚ
  width : ℚ
  height : ℚ
deriving DecidableEq

/-- Maximum canvas width in src/src/ui.js `makeImageResizable`. -/
def MAX_WIDTH : ℚ := 700

/-- Maximum canvas height in src/src/ui.js `makeImageResizable`. -/
def MAX_HEIGHT : ℚ := 410

/-- The `boundBoxFunc` closure (src/src/ui.js lines 306-315): if the
proposed box's width or height exceeds the maximum in absolute value,
return the old box, otherwise return the proposed box. -/
def boundBoxFunc (maxWidth maxHeight : ℚ) (oldBoundBox newBoundBox : BoundBox) :
    BoundBox :=
  if |newBoundBox.width| > maxWidth ∨ |newBoundBox.height| > maxHeight then
    oldBoundBox
  else
    newBoundBox

/-- C3: the bound-box policy returns the old box unchanged whenever the
proposed width or height exceeds the maximum extent in absolute value and
the proposed box otherwise; hence, whenever the previous box is within the
maxima, the box it commits is within the maxima in both dimensions. -/
theorem boundBoxFunc_bounds (maxWidth maxHeight : ℚ)
    (oldBoundBox newBoundBox : BoundBox)
    (h : |oldBoundBox.width| ≤ maxWidth ∧ |oldBoundBox.height| ≤ maxHeight) :
    |(boundBoxFunc maxWidth maxHeight oldBoundBox newBoundBox).width| ≤ maxWidth
    ∧ |(boundBoxFunc maxWidth maxHeight oldBoundBox newBoundBox).height| ≤ maxHeight
    ∧ boundBoxFunc maxWidth maxHeight oldBoundBox newBoundBox
        = if |newBoundBox.width| > maxWidth ∨ |newBoundBox.height| > maxHeight then
            oldBoundBox
          else
            newBoundBox := by
  unfold boundBoxFunc
  by_cases hc : |newBoundBox.width| > maxWidth ∨ |newBoundBox.height| > maxHeight
  · rw [if_pos hc]
    exact ⟨h.1, h.2, rfl⟩
  · rw [if_neg hc]
    push_neg at hc
    exact ⟨hc.1, hc.2, rfl⟩

theorem boundBoxFunc_bounds_witness :
    |(boundBoxFunc MAX_WIDTH MAX_HEIGHT
        { x := 0, y := 0, width := 600, height := 375 }
        { x := 0, y := 0, width := 800, height := 100 }).width| ≤ MAX_WIDTH :=
  (boundBoxFunc_bounds MAX_WIDTH MAX_HEIGHT
    { x := 0, y := 0, width := 600, height := 375 }
    { x := 0, y := 0, width := 800, height := 100 } (by decide)).1

/-! ## Resize / manual-size state machine (src/src/ui.js)

The mutable state the resize-mode button, the undo-resize button and
`onSetImageSize` read and write.  Field ↔ source mapping:

  - `isChangeResizeMode`   = `config.isChangeResizeMode`
  - `setSizeDisabled`      = `nodes.setSizeButton.disabled`
  - `undoDisabled`         = `nodes.undoResizeButton.disabled`
  - `widthEditable`        = `nodes.imageWidth.contentEditable`
  - `heightEditable`       = `nodes.imageHeight.contentEditable`
  - `resizeTuneOn`         = the wrapper's `resizeMode-on` CSS class
                             (written by `applyTune('resizeMode-on', …)`)
  - `konvaActive`          = a Konva stage is mounted in the image container
                             (`makeImageResizable` mounts it,
                             `konva.stage.content.remove()` discards it)
  - `konvaWidth/Height`    = `config.konvaWidth` / `config.konvaHeight`
  - `imageWidthCfg/…`      = `config.imageWidth` / `config.imageHeight`
  - `styleWidth/Height`    = `nodes.imageEl.style` inline width/height
  - `imageWidthText/…`     = `nodes.imageWidth.textContent` /
                             `nodes.imageHeight.textContent` -/

structure UiState where
  isChangeResizeMode : Bool
  setSizeDisabled : Bool
  undoDisabled : Bool
  widthEditable : Bool
  heightEditable : Bool
  resizeTuneOn : Bool
  konvaActive : Bool
  konvaWidth : ℚ
  konvaHeight : ℚ
  imageWidthCfg : ℚ
  imageHeightCfg : ℚ
  styleWidth : Option ℚ
  styleHeight : Option ℚ
  imageWidthText : Option ℚ
  imageHeightText : Option ℚ
deriving DecidableEq

/-- The state after the constructor runs (src/src/ui.js lines 25-100):
resize mode not entered (`config.isChangeResizeMode` undefined, read as
false), the undo button created disabled (`button.disabled = true` in
`createUndoResizeButton`), the size fields contentEditable exactly when not
read-only, no Konva stage, no inline image size, empty size fields.
`config.konvaWidth`/`konvaHeight` come from the host-provided config and are
parameters. -/
def initState (readOnly : Bool) (konvaWidth0 konvaHeight0 : ℚ) : UiState :=
  { isChangeResizeMode := false
    setSizeDisabled := false
    undoDisabled := true
    widthEditable := !readOnly
    heightEditable := !readOnly
    resizeTuneOn := false
    konvaActive := false
    konvaWidth := konvaWidth0
    konvaHeight := konvaHeight0
    imageWidthCfg := 0
    imageHeightCfg := 0
    styleWidth := none
    styleHeight := none
    imageWidthText := none
    imageHeightText := none }

/-- JavaScript `parseInt` applied to a number: the number is truncated
toward zero. -/
def jsParseInt (q : ℚ) : ℤ :=
  if 0 ≤ q then ⌊q⌋ else ⌈q⌉

/-- `onSetImageSize()` (src/src/ui.js lines 466-482):
`config.imageWidth/Height` get `'' ? 0 : Number(text)`;
`config.konvaWidth/Height` are updated only from a non-empty field;
`imageEl.style.width/height` get `''` (no inline size) for an empty field
and `text + 'px'` otherwise. -/
def onSetImageSize (s : UiState) : UiState :=
  { s with
    imageWidthCfg := s.imageWidthText.getD 0
    imageHeightCfg := s.imageHeightText.getD 0
    konvaWidth := s.imageWidthText.getD s.konvaWidth
    konvaHeight := s.imageHeightText.getD s.konvaHeight
    styleWidth := s.imageWidthText
    styleHeight := s.imageHeightText }

/-- The resize-mode button's click handler (src/src/ui.js lines 533-566).
The handler first flips `config.isChangeResizeMode`, disables the set-size
button and the two size fields exactly when the new mode is on, then either
mounts the Konva proxy (`makeImageResizable`, entering) or — exiting — reads
the proxy's final `attrs.width`/`attrs.height` (the `proxyWidth`/
`proxyHeight` parameters; the Konva scene itself is outside the program),
discards the stage, writes the dimensions into `config.konvaWidth/Height`,
re-renders the image via `style.cssText = 'width:…px;height:…px;'`, and
stores `parseInt` of them into the size fields' text and into
`config.imageWidth/Height`. -/
def resizeModeClick (proxyWidth proxyHeight : ℚ) (s : UiState) : UiState :=
  let mode := !s.isChangeResizeMode
  if mode then
    { s with
      isChangeResizeMode := mode
      resizeTuneOn := mode
      setSizeDisabled := mode
      widthEditable := !mode
      heightEditable := !mode
      undoDisabled := !mode
      konvaActive := true }
  else
    { s with
      isChangeResizeMode := mode
      resizeTuneOn := mode
      setSizeDisabled := mode
      widthEditable := !mode
      heightEditable := !mode
      undoDisabled := !mode
      konvaActive := false
      konvaWidth := proxyWidth
      konvaHeight := proxyHeight
      styleWidth := some proxyWidth
      styleHeight := some proxyHeight
      imageWidthText := some ((jsParseInt proxyWidth : ℤ) : ℚ)
      imageHeightText := some ((jsParseInt proxyHeight : ℤ) : ℚ)
      imageWidthCfg := ((jsParseInt proxyWidth : ℤ) : ℚ)
      imageHeightCfg := ((jsParseInt proxyHeight : ℤ) : ℚ) }

/-- The undo-resize button's click handler (src/src/ui.js lines 501-526).
With resize mode on it turns the mode off, disables itself, re-enables the
set-size button and the size fields, discards the Konva stage and clears
the image element's entire inline style (`style.cssText = ''`) without
touching `config.konvaWidth/Height` or `config.imageWidth/Height`; with
resize mode off it only rewrites its own disabled flag and the tune class
from the (false) mode flag. -/
def undoResizeClick (s : UiState) : UiState :=
  if s.isChangeResizeMode then
    { s with
      isChangeResizeMode := false
      resizeTuneOn := false
      undoDisabled := true
      setSizeDisabled := false
      widthEditable := true
      heightEditable := true
      konvaActive := false
      styleWidth := none
      styleHeight := none }
  else
    { s with
      undoDisabled := s.isChangeResizeMode
      resizeTuneOn := s.isChangeResizeMode }

/-- The user-interface events that drive the state above.  `editSizeFields`
is the environment (the user typing into the two contentEditable fields);
`setSizeClick` is the set-size button, `sizeFieldEnter` the Enter-key
handler registered on both fields — both run `onSetImageSize`. -/
inductive UiEvent where
  | resizeModeClick (proxyWidth proxyHeight : ℚ)
  | undoResizeClick
  | editSizeFields (width height : Option ℚ)
  | setSizeClick
  | sizeFieldEnter

def editSizeFields (width height : Option ℚ) (s : UiState) : UiState :=
  { s with imageWidthText := width, imageHeightText := height }

def uiStep (e : UiEvent) (s : UiState) : UiState :=
  match e with
  | .resizeModeClick pw ph => resizeModeClick pw ph s
  | .undoResizeClick => undoResizeClick s
  | .editSizeFields w h => editSizeFields w h s
  | .setSizeClick => onSetImageSize s
  | .sizeFieldEnter => onSetImageSize s

def uiRun (events : List UiEvent) (s : UiState) : UiState :=
  events.foldl (fun st e => uiStep e st) s

/-- C4: from any static state, entering interactive-resize mode and then
pressing the resize-mode control again with the proxy at final dimensions
`proxyWidth × proxyHeight` commits exactly those dimensions into the
persisted `config.konvaWidth`/`konvaHeight` and re-renders the static image
element with exactly those inline pixel dimensions; resize mode ends off
and the overlay is discarded.  (`config.imageWidth`/`imageHeight` and the
two size fields additionally receive the `parseInt`-truncated copies, equal
to the committed values whenever the proxy dimensions are whole numbers.) -/
theorem resizeCommit_writes_proxySize (s : UiState) (pw0 ph0 : ℚ)
    (proxyWidth proxyHeight : ℚ) (h : s.isChangeResizeMode = false) :
    (resizeModeClick proxyWidth proxyHeight
        (resizeModeClick pw0 ph0 s)).konvaWidth = proxyWidth
    ∧ (resizeModeClick proxyWidth proxyHeight
        (resizeModeClick pw0 ph0 s)).konvaHeight = proxyHeight
    ∧ (resizeModeClick proxyWidth proxyHeight
        (resizeModeClick pw0 ph0 s)).styleWidth = some proxyWidth
    ∧ (resizeModeClick proxyWidth proxyHeight
        (resizeModeClick pw0 ph0 s)).styleHeight = some proxyHeight
    ∧ (resizeModeClick proxyWidth proxyHeight
        (resizeModeClick pw0 ph0 s)).imageWidthCfg
        = ((jsParseInt proxyWidth : ℤ) : ℚ)
    ∧ (resizeModeClick proxyWidth proxyHeight
        (resizeModeClick pw0 ph0 s)).imageHeightCfg
        = ((jsParseInt proxyHeight : ℤ) : ℚ)
    ∧ (resizeModeClick pw0 ph0 s).isChangeResizeMode = true
    ∧ (resizeModeClick proxyWidth proxyHeight
        (resizeModeClick pw0 ph0 s)).isChangeResizeMode = false
    ∧ (resizeModeClick proxyWidth proxyHeight
        (resizeModeClick pw0 ph0 s)).konvaActive = false := by
  simp [resizeModeClick, h]

theorem resizeCommit_writes_proxySize_witness :
    (resizeModeClick 302 151
        (resizeModeClick 600 375 (initState false 600 375))).konvaWidth = 302 :=
  (resizeCommit_writes_proxySize (initState false 600 375) 600 375 302 151
    (by decide)).1

/-- C5 counterexample: reachable run refuting the claim that undo restores
the image's displayed size.  From the initial state, type 302 × 151 into the
size fields and apply them (inline style becomes 302px × 151px), then enter
interactive-resize mode and press undo: the inline style is now cleared
(`style.cssText = ''`, natural size), not the pre-entry 302px width the
claim requires. -/
theorem undoResize_restores_style_cex :
    (uiRun [UiEvent.editSizeFields (some 302) (some 151), UiEvent.setSizeClick,
        UiEvent.resizeModeClick 600 375, UiEvent.undoResizeClick]
        (initState false 600 375)).styleWidth
      ≠ (uiRun [UiEvent.editSizeFields (some 302) (some 151),
          UiEvent.setSizeClick]
        (initState false 600 375)).styleWidth := by
  decide

/-- C5 amended: from any static state, entering interactive-resize mode and
then invoking undo discards the overlay without committing the proxy's
geometry — the persisted `config.konvaWidth/Height` and
`config.imageWidth/Height` keep their pre-entry values and resize mode ends
off — but the image element's whole inline style is cleared (the image
shows at natural size), rather than being restored to its pre-entry inline
size; the displayed size is preserved exactly when no inline size was set
before entry. -/
theorem undoResize_discards (s : UiState) (pw0 ph0 : ℚ)
    (h : s.isChangeResizeMode = false) :
    (undoResizeClick (resizeModeClick pw0 ph0 s)).konvaWidth = s.konvaWidth
    ∧ (undoResizeClick (resizeModeClick pw0 ph0 s)).konvaHeight = s.konvaHeight
    ∧ (undoResizeClick (resizeModeClick pw0 ph0 s)).imageWidthCfg
        = s.imageWidthCfg
    ∧ (undoResizeClick (resizeModeClick pw0 ph0 s)).imageHeightCfg
        = s.imageHeightCfg
    ∧ (undoResizeClick (resizeModeClick pw0 ph0 s)).styleWidth = none
    ∧ (undoResizeClick (resizeModeClick pw0 ph0 s)).styleHeight = none
    ∧ (undoResizeClick (resizeModeClick pw0 ph0 s)).isChangeResizeMode = false
    ∧ (undoResizeClick (resizeModeClick pw0 ph0 s)).konvaActive = false := by
  simp [resizeModeClick, undoResizeClick, h]

theorem undoResize_discards_witness :
    (undoResizeClick (resizeModeClick 600 375
        (initState false 600 375))).konvaWidth
      = (initState false 600 375).konvaWidth :=
  (undoResize_discards (initState false 600 375) 600 375 (by decide)).1

/-- C6 counterexample: in the src/src/ui.js revision of `onSetImageSize`, a
populated width field (302) with an empty height field does not retain the
prior committed height 151: `config.imageHeight` is reset to 0 and the
inline height style is cleared. -/
theorem onSetImageSize_clearsHeight_cex :
    (onSetImageSize
        { isChangeResizeMode := false, setSizeDisabled := false,
          undoDisabled := true, widthEditable := true, heightEditable := true,
          resizeTuneOn := false, konvaActive := false,
          konvaWidth := 600, konvaHeight := 151,
          imageWidthCfg := 600, imageHeightCfg := 151,
          styleWidth := some 600, styleHeight := some 151,
          imageWidthText := some 302, imageHeightText := none }).imageHeightCfg
      ≠ 151
    ∧ (onSetImageSize
        { isChangeResizeMode := false, setSizeDisabled := false,
          undoDisabled := true, widthEditable := true, heightEditable := true,
          resizeTuneOn := false, konvaActive := false,
          konvaWidth := 600, konvaHeight := 151,
          imageWidthCfg := 600, imageHeightCfg := 151,
          styleWidth := some 600, styleHeight := some 151,
          imageWidthText := some 302, imageHeightText := none }).styleHeight
      ≠ some 151 := by
  refine ⟨by decide, by decide⟩

/-- `onSetImageSize()` of the src/unnamed/part_000 revision (lines 632-674),
as a function of the two input fields' values and the image element's
previous inline style: both fields populated writes both; exactly one
populated writes that one and re-assigns the previous inline value for the
other; both empty changes nothing.  Returns the (width, height) inline
style pair. -/
def onSetImageSizeAlt (inputWidth inputHeight : Option ℚ)
    (styleWidth styleHeight : Option ℚ) : Option ℚ × Option ℚ :=
  match inputWidth with
  | some w =>
      match inputHeight with
      | some h => (some w, some h)
      | none => (some w, styleHeight)
  | none =>
      match inputHeight with
      | some h => (styleWidth, some h)
      | none => (styleWidth, styleHeight)

/-- C6 amended: the two revisions diverge.  In src/unnamed/part_000, manual
size entry with exactly one field populated sets that dimension and retains
the previous value for the missing one, as the claim states.  In
src/src/ui.js, the populated dimension is set but the missing dimension's
`config` value is reset to 0 and its inline style cleared (natural size);
only `config.konvaWidth`/`konvaHeight` retain the missing dimension's prior
value. -/
theorem onSetImageSize_oneEmpty (s : UiState) (w h : ℚ)
    (stW stH : Option ℚ) :
    (onSetImageSize
        { s with imageWidthText := some w, imageHeightText := none
        }).imageWidthCfg = w
    ∧ (onSetImageSize
        { s with imageWidthText := some w, imageHeightText := none
        }).styleWidth = some w
    ∧ (onSetImageSize
        { s with imageWidthText := some w, imageHeightText := none
        }).imageHeightCfg = 0
    ∧ (onSetImageSize
        { s with imageWidthText := some w, imageHeightText := none
        }).styleHeight = none
    ∧ (onSetImageSize
        { s with imageWidthText := some w, imageHeightText := none
        }).konvaHeight = s.konvaHeight
    ∧ (onSetImageSize
        { s with imageWidthText := none, imageHeightText := some h
        }).imageHeightCfg = h
    ∧ (onSetImageSize
        { s with imageWidthText := none, imageHeightText := some h
        }).styleHeight = some h
    ∧ (onSetImageSize
        { s with imageWidthText := none, imageHeightText := some h
        }).imageWidthCfg = 0
    ∧ (onSetImageSize
        { s with imageWidthText := none, imageHeightText := some h
        }).styleWidth = none
    ∧ (onSetImageSize
        { s with imageWidthText := none, imageHeightText := some h
        }).konvaWidth = s.konvaWidth
    ∧ onSetImageSizeAlt (some w) none stW stH = (some w, stH)
    ∧ onSetImageSizeAlt none (some h) stW stH = (stW, some h) := by
  simp [onSetImageSize, onSetImageSizeAlt]

/-- Single-writer discipline: with resize mode on, manual entry is locked
out (both size fields non-editable and the set-size button disabled). -/
def manualLockInv (s : UiState) : Prop :=
  s.isChangeResizeMode = true →
    s.widthEditable = false ∧ s.heightEditable = false
      ∧ s.setSizeDisabled = true

theorem uiStep_manualLockInv (e : UiEvent) (s : UiState)
    (h : manualLockInv s) : manualLockInv (uiStep e s) := by
  cases e with
  | resizeModeClick pw ph =>
      unfold uiStep resizeModeClick manualLockInv
      by_cases hm : s.isChangeResizeMode = true <;> simp [hm]
  | undoResizeClick =>
      unfold uiStep undoResizeClick manualLockInv
      by_cases hm : s.isChangeResizeMode = true <;> simp [hm]
  | editSizeFields w h2 =>
      intro hmode
      exact h hmode
  | setSizeClick =>
      intro hmode
      exact h hmode
  | sizeFieldEnter =>
      intro hmode
      exact h hmode

theorem uiRun_manualLockInv (events : List UiEvent) (s : UiState)
    (h : manualLockInv s) : manualLockInv (uiRun events s) := by
  induction events generalizing s with
  | nil => exact h
  | cons e rest ih => exact ih (uiStep e s) (uiStep_manualLockInv e s h)

/-- C9: in every state reachable from the freshly constructed block (any
read-only flag, any configured Konva extent) by any sequence of
resize-mode clicks, undo clicks, size-field edits and set-size
applications, the manual-entry path and the interactive-resize path are
never simultaneously active: the resize-mode flag being on excludes each of
width-field editability, height-field editability and the set-size button
being enabled — equivalently, the fields are editable or the button enabled
only when resize mode is off. -/
theorem resizeMode_disables_manual (readOnly : Bool)
    (konvaWidth0 konvaHeight0 : ℚ) (events : List UiEvent) :
    ((uiRun events (initState readOnly konvaWidth0 konvaHeight0)).isChangeResizeMode
        && (uiRun events (initState readOnly konvaWidth0 konvaHeight0)).widthEditable)
      = false
    ∧ ((uiRun events (initState readOnly konvaWidth0 konvaHeight0)).isChangeResizeMode
        && (uiRun events (initState readOnly konvaWidth0 konvaHeight0)).heightEditable)
      = false
    ∧ ((uiRun events (initState readOnly konvaWidth0 konvaHeight0)).isChangeResizeMode
        && !(uiRun events (initState readOnly konvaWidth0 konvaHeight0)).setSizeDisabled)
      = false := by
  have hinit : manualLockInv (initState readOnly konvaWidth0 konvaHeight0) := by
    intro hmode
    simp [initState] at hmode
  have hinv := uiRun_manualLockInv events _ hinit
  set t := uiRun events (initState readOnly konvaWidth0 konvaHeight0) with ht
  by_cases hm : t.isChangeResizeMode = true
  · obtain ⟨h1, h2, h3⟩ := hinv hm
    simp [hm, h1, h2, h3]
  · simp at hm
    simp [hm]

/-! ## Media element construction and Ui status (src/src/ui.js) -/

/-- The three Ui statuses (src/src/ui.js lines 142-148). -/
inductive Status where
  | empty
  | uploading
  | filled
deriving DecidableEq

inductive MediaTag where
  | video
  | img
deriving DecidableEq

/-- The element `fillImage` composes: its tag, source, the four
video-playback attributes (absent means false) and the name of the
load-completion event its listener is registered on. -/
structure MediaElement where
  tag : MediaTag
  src : String
  autoplay : Bool
  loop : Bool
  muted : Bool
  playsinline : Bool
  eventName : String
deriving DecidableEq

/-- The regular-expression test from `fillImage`:
`/\.mp4$/.test(url)` holds exactly when the url ends in ".mp4". -/
def isMp4Url (url : String) : Bool :=
  url.endsWith ".mp4"

/-- `fillImage(url)` (src/src/ui.js lines 213-276), element construction:
the tag is VIDEO exactly when the url matches `/\.mp4$/`; the attributes
start as `{src}` with event name 'load', and for a VIDEO tag the autoplay,
loop, muted and playsinline attributes are added and the event name changed
to 'loadeddata'. -/
def fillImage (url : String) : MediaElement :=
  let tag := if isMp4Url url then MediaTag.video else MediaTag.img
  let base : MediaElement :=
    { tag := tag, src := url, autoplay := false, loop := false,
      muted := false, playsinline := false, eventName := "load" }
  if tag = MediaTag.video then
    { base with
      autoplay := true
      loop := true
      muted := true
      playsinline := true
      eventName := "loadeddata" }
  else
    base

/-- `fillImage` runs no `toggleStatus` of its own: the block's status is
whatever it was before the call (the only `toggleStatus(FILLED)` sits inside
the load-event listener). -/
def statusAfterFillImage (status : Status) : Status := status

/-- The listener `fillImage` registers on the element's load-completion
event: `toggleStatus(Ui.status.FILLED)`. -/
def statusAfterLoadEvent (status : Status) : Status := Status.filled

/-- C7: `fillImage(url)` creates a VIDEO element carrying autoplay, loop,
muted and playsinline exactly when the url ends in ".mp4" and an IMG
element without them otherwise; the load-completion event listened on is
'loadeddata' for video and 'load' for image; the status is unchanged by the
call itself and becomes Filled when the element fires that event. -/
theorem fillImage_videoVsImage (url : String) (status : Status) :
    (fillImage url).tag
      = (if url.endsWith ".mp4" then MediaTag.video else MediaTag.img)
    ∧ (fillImage url).autoplay = url.endsWith ".mp4"
    ∧ (fillImage url).loop = url.endsWith ".mp4"
    ∧ (fillImage url).muted = url.endsWith ".mp4"
    ∧ (fillImage url).playsinline = url.endsWith ".mp4"
    ∧ (fillImage url).eventName
      = (if url.endsWith ".mp4" then "loadeddata" else "load")
    ∧ (fillImage url).src = url
    ∧ statusAfterFillImage status = status
    ∧ statusAfterLoadEvent status = Status.filled := by
  by_cases hc : url.endsWith ".mp4" = true <;>
    simp [fillImage, isMp4Url, statusAfterFillImage, statusAfterLoadEvent, hc]

/-! ## render and the file field (src/src/ui.js lines 156-164) -/

/-- A JavaScript value, as far as `render`'s `toolData.file` check can
distinguish one: absent (undefined), null, a boolean, a number, a string,
or an object given by its own enumerable properties. -/
inductive JSValue where
  | undef
  | null
  | boolean (b : Bool)
  | number (q : ℚ)
  | str (s : String)
  | obj (fields : List (String × JSValue))

/-- JavaScript truthiness of a value. -/
def jsTruthy : JSValue → Bool
  | .undef => false
  | .null => false
  | .boolean b => b
  | .number q => decide (q ≠ 0)
  | .str s => decide (s ≠ "")
  | .obj _ => true

/-- `Object.keys`: the own enumerable property names; a TypeError for
undefined and null, the character indices for a string, empty for the other
primitives. -/
def objectKeys : JSValue → Except String (List String)
  | .undef => .error "TypeError"
  | .null => .error "TypeError"
  | .boolean _ => .ok []
  | .number _ => .ok []
  | .str s => .ok ((List.range s.length).map toString)
  | .obj fields => .ok (fields.map Prod.fst)

/-- `render(toolData)` (src/src/ui.js lines 156-164), as a function of
`toolData.file`: `!toolData.file || Object.keys(toolData.file).length === 0`
selects the Empty status, anything else the Uploading status.  The
short-circuit of `||` means `Object.keys` is never reached on undefined or
null. -/
def render (file : JSValue) : Except String Status :=
  if jsTruthy file = false then
    .ok Status.empty
  else
    match objectKeys file with
    | .error e => .error e
    | .ok keys => .ok (if keys.length = 0 then Status.empty else Status.uploading)

/-- C8: `render` never throws — it returns a status for every file value,
including undefined, null and non-object primitives; a missing (undefined
or null) file, an empty file object and the keyless primitives yield the
Empty status, and a present non-empty file object yields the Uploading
status. -/
theorem render_total_empty_uploading (file : JSValue) (k : String)
    (v : JSValue) (fields : List (String × JSValue)) :
    (render file).isOk = true
    ∧ render JSValue.undef = Except.ok Status.empty
    ∧ render JSValue.null = Except.ok Status.empty
    ∧ render (JSValue.obj []) = Except.ok Status.empty
    ∧ render (JSValue.boolean false) = Except.ok Status.empty
    ∧ render (JSValue.number 0) = Except.ok Status.empty
    ∧ render (JSValue.str "") = Except.ok Status.empty
    ∧ render (JSValue.obj ((k, v) :: fields)) = Except.ok Status.uploading := by
  refine ⟨?_, rfl, rfl, rfl, rfl, ?_, ?_, ?_⟩
  · cases file with
    | undef => rfl
    | null => rfl
    | boolean b => cases b <;> rfl
    | number q =>
        unfold render
        split
        · rfl
        · rfl
    | str s =>
        unfold render
        split
        · rfl
        · rfl
    | obj fields2 =>
        unfold render
        split
        · rfl
        · rfl
  · unfold render
    simp [jsTruthy]
  · unfold render
    simp [jsTruthy]
  · unfold render
    simp [jsTruthy, objectKeys]

end ImageBlock
